import Mathlib

/-!
# Verification of the Flappy Bird gymnasium environment

A shallow embedding of `src/flappy_bird_gymnasium/envs/flappy_bird_env.py`
(the gymnasium wrapper `FlappyBirdEnv`) together with a model of the core
simulation engine (`FlappyBirdLogic`, the lidar range sensor and the
renderer), which is imported by the wrapper but whose module is not part of
the excerpted sources; those parts are modelled from the design document.

Exact arithmetic: the Python code works on floats; the embedding uses an
executable rational type `Q` (an integer numerator with a positive integer
denominator, not necessarily reduced) whose operations compute by kernel
reduction, bridged to `ℚ` through `Q.val` for order-theoretic statements.
-/

/-- Executable rational numbers: numerator, positive denominator
(not necessarily in lowest terms).  All field operations are plain `ℤ`
arithmetic, so terms evaluate by kernel reduction. -/
structure Q where
  num : ℤ
  den : ℤ
  dpos : 0 < den

def Q.ofInt (n : ℤ) : Q := ⟨n, 1, one_pos⟩

instance (n : ℕ) : OfNat Q n := ⟨Q.ofInt n⟩

instance : Neg Q := ⟨fun a => ⟨-a.num, a.den, a.dpos⟩⟩

instance : Add Q :=
  ⟨fun a b => ⟨a.num * b.den + b.num * a.den, a.den * b.den, mul_pos a.dpos b.dpos⟩⟩

instance : Sub Q := ⟨fun a b => a + -b⟩

instance : Mul Q := ⟨fun a b => ⟨a.num * b.num, a.den * b.den, mul_pos a.dpos b.dpos⟩⟩

/-- Multiplicative inverse; `0` maps to `0` (the convention of `ℚ`). -/
def Q.inv (a : Q) : Q :=
  if h : 0 < a.num then ⟨a.den, a.num, h⟩
  else if h' : a.num < 0 then ⟨-a.den, -a.num, by omega⟩
  else ⟨0, 1, one_pos⟩

instance : Div Q := ⟨fun a b => a * b.inv⟩

/-- Boolean order test: `a ≤ b` by cross multiplication. -/
def Q.ble (a b : Q) : Bool := decide (a.num * b.den ≤ b.num * a.den)

/-- Boolean strict order test: `a < b` by cross multiplication. -/
def Q.blt (a b : Q) : Bool := decide (a.num * b.den < b.num * a.den)

def Q.min (a b : Q) : Q := if a.ble b then a else b

def Q.max (a b : Q) : Q := if a.ble b then b else a

/-- The rational value represented by a `Q`. -/
def Q.val (a : Q) : ℚ := (a.num : ℚ) / (a.den : ℚ)

/-! ## Bridge lemmas from `Q` to `ℚ` -/

theorem Q.den_ne (a : Q) : (a.den : ℚ) ≠ 0 := by
  exact_mod_cast Int.ne_of_gt a.dpos

theorem Q.den_posQ (a : Q) : (0 : ℚ) < (a.den : ℚ) := by exact_mod_cast a.dpos

theorem Q.val_ofInt (n : ℤ) : (Q.ofInt n).val = (n : ℚ) := by
  simp [Q.ofInt, Q.val]

theorem Q.val_ofNat (n : ℕ) : (OfNat.ofNat n : Q).val = (n : ℚ) := by
  show (Q.ofInt n).val = _
  simp [Q.val_ofInt]

theorem Q.val_neg (a : Q) : (-a).val = -a.val := by
  show (⟨-a.num, a.den, a.dpos⟩ : Q).val = _
  simp [Q.val, neg_div]

theorem Q.val_add (a b : Q) : (a + b).val = a.val + b.val := by
  show (⟨a.num * b.den + b.num * a.den, a.den * b.den, _⟩ : Q).val = _
  unfold Q.val
  push_cast
  rw [div_add_div _ _ a.den_ne b.den_ne]
  ring_nf

theorem Q.val_sub (a b : Q) : (a - b).val = a.val - b.val := by
  show (a + -b).val = _
  rw [Q.val_add, Q.val_neg, sub_eq_add_neg]

theorem Q.val_mul (a b : Q) : (a * b).val = a.val * b.val := by
  show (⟨a.num * b.num, a.den * b.den, _⟩ : Q).val = _
  unfold Q.val
  field_simp

theorem Q.val_inv (a : Q) : a.inv.val = a.val⁻¹ := by
  unfold Q.inv Q.val
  split
  · next h =>
    rw [inv_div]
  · split
    · next h h' =>
      show ((-a.den : ℤ) : ℚ) / ((-a.num : ℤ) : ℚ) = _
      push_cast
      rw [inv_div, div_neg, neg_div, neg_neg]
    · next h h' =>
      have hz : a.num = 0 := by omega
      simp [hz]

theorem Q.val_div (a b : Q) : (a / b).val = a.val / b.val := by
  show (a * b.inv).val = _
  rw [Q.val_mul, Q.val_inv, div_eq_mul_inv]

theorem Q.ble_iff (a b : Q) : a.ble b = true ↔ a.val ≤ b.val := by
  unfold Q.ble Q.val
  rw [decide_eq_true_iff, div_le_div_iff a.den_posQ b.den_posQ]
  constructor
  · intro h; exact_mod_cast h
  · intro h; exact_mod_cast h

theorem Q.blt_iff (a b : Q) : a.blt b = true ↔ a.val < b.val := by
  unfold Q.blt Q.val
  rw [decide_eq_true_iff, div_lt_div_iff a.den_posQ b.den_posQ]
  constructor
  · intro h; exact_mod_cast h
  · intro h; exact_mod_cast h

theorem Q.ble_false_iff (a b : Q) : a.ble b = false ↔ b.val < a.val := by
  rw [← not_le, ← Q.ble_iff, Bool.not_eq_true]

theorem Q.val_min (a b : Q) : (a.min b).val = Min.min a.val b.val := by
  unfold Q.min
  rcases h : a.ble b with _ | _
  · rw [if_neg (by simp), min_eq_right (le_of_lt ((Q.ble_false_iff a b).mp h))]
  · rw [if_pos rfl, min_eq_left ((Q.ble_iff a b).mp h)]

theorem Q.val_max (a b : Q) : (a.max b).val = Max.max a.val b.val := by
  unfold Q.max
  rcases h : a.ble b with _ | _
  · rw [if_neg (by simp), max_eq_left (le_of_lt ((Q.ble_false_iff a b).mp h))]
  · rw [if_pos rfl, max_eq_right ((Q.ble_iff a b).mp h)]

/-! ## Actions (from `FlappyBirdLogic.Actions`, referenced at
`src/flappy_bird_gymnasium/envs/flappy_bird_env.py:115`): zero means
"do nothing", one means "flap". -/

inductive Actions where
  | idle
  | flap
deriving DecidableEq

/-! ## Constants

`LIDAR_MAX_DISTANCE` is imported by the wrapper
(`src/flappy_bird_gymnasium/envs/flappy_bird_env.py:35`) from the missing
`constants` module; the design document only requires it to be a fixed
positive maximum range.  The remaining physics constants parameterize the
engine model (missing `game_logic` module) per the design document:
gravity per tick, terminal fall velocity, flap impulse, pipe scroll rate,
fixed geometry of the player and the pipes. -/

/-- Modelled from the spec: the fixed maximum range of the lidar sensor
(`LIDAR_MAX_DISTANCE` from the missing constants module). -/
def LIDAR_MAX_DISTANCE : Q := 346

/-- Number of lidar rays: fixed by the declared observation dimensionality
(`shape=(360,)` at `src/flappy_bird_gymnasium/envs/flappy_bird_env.py:83`). -/
def NUM_RAYS : ℕ := 360

/-- Modelled from the spec: downward acceleration added to the player's
vertical velocity each tick. -/
def PLAYER_ACC_Y : Q := 1

/-- Modelled from the spec: terminal (maximum downward) vertical velocity. -/
def PLAYER_MAX_VEL_Y : Q := 10

/-- Modelled from the spec: vertical velocity set by a flap (upward). -/
def PLAYER_FLAP_ACC : Q := -9

/-- Modelled from the spec: fixed per-tick leftward scroll rate of pipes. -/
def PIPE_VEL_X : Q := 4

/-- Modelled from the spec: width of a pipe's bounding rectangles. -/
def PIPE_WIDTH : Q := 52

/-- Modelled from the spec: width of the player's bounding rectangle. -/
def PLAYER_WIDTH : Q := 34

/-- Modelled from the spec: height of the player's bounding rectangle. -/
def PLAYER_HEIGHT : Q := 24

/-- Modelled from the spec: fixed horizontal spacing between consecutive
pipe pairs (spawn-interval threshold). -/
def PIPE_SPACING : Q := 150

/-- Modelled from the spec: margin keeping the randomized gap away from
ground and ceiling. -/
def GAP_MARGIN : Q := 20

/-! ## RandomSource

Modelled from the spec: a seedable uniform random generator owned by the
caller and threaded explicitly through the engine (the wrapper passes
`self.np_random`, seeded in `reset`, to the game logic at
`src/flappy_bird_gymnasium/envs/flappy_bird_env.py:152-156`). -/

/-- One step of a linear congruential generator over a 31-bit state. -/
def lcgNext (s : ℕ) : ℕ := (1103515245 * s + 12345) % 2 ^ 31

/-- Modelled from the spec: `uniform(low, high) -> float`, a uniform draw
in `[lo, hi]` consuming one generator step. -/
def uniformQ (lo hi : Q) (s : ℕ) : Q × ℕ :=
  let s' := lcgNext s
  (lo + (hi - lo) * ⟨((s' % 1024 : ℕ) : ℤ), 1023, by norm_num⟩, s')

/-- The PRNG state obtained from a reset seed. -/
def mkRng (seed : ℕ) : ℕ := lcgNext seed

/-! ## Obstacle pairs -/

/-- Modelled from the spec: one obstacle pair — horizontal position `x`
(left edge, scrolls left) and vertical gap center `gap_y`; the upper
rectangle spans vertically from the ceiling to `gap_y - gap/2`, the lower
rectangle from `gap_y + gap/2` to the ground. -/
structure PipePair where
  x : Q
  gap_y : Q

def PipePair.gapTop (pipe_gap : Q) (p : PipePair) : Q := p.gap_y - pipe_gap / 2

def PipePair.gapBottom (pipe_gap : Q) (p : PipePair) : Q := p.gap_y + pipe_gap / 2

/-! ## Game logic

Modelled from the spec: the `FlappyBirdLogic` state owned by one episode
(module `game_logic` is imported at
`src/flappy_bird_gymnasium/envs/flappy_bird_env.py:36` but missing from the
excerpt). -/

structure FlappyBirdLogic where
  screen_width : Q
  screen_height : Q
  pipe_gap : Q
  player_x : Q
  player_y : Q
  player_vel_y : Q
  player_rot : Q
  pipes : List PipePair
  score : ℕ
  alive : Bool
  rng : ℕ

/-- Modelled from the spec: the fixed ground line of the playfield. -/
def FlappyBirdLogic.ground (g : FlappyBirdLogic) : Q := g.screen_height * 79 / 100

/-- Modelled from the spec: draw a gap center uniformly at random, bounded
so the gap stays between ceiling and ground with a fixed margin. -/
def drawGapY (screen_height pipe_gap : Q) (rng : ℕ) : Q × ℕ :=
  let ground := screen_height * 79 / 100
  let lo := pipe_gap / 2 + GAP_MARGIN
  let hi := ground - pipe_gap / 2 - GAP_MARGIN
  uniformQ lo hi rng

/-- Modelled from the spec: initial game state of an episode — fixed
initial player position/velocity/rotation, score zero, alive, one pipe
pair spawned at the right screen edge with a randomized gap center. -/
def FlappyBirdLogic.init (rng : ℕ) (screen_size : ℤ × ℤ) (pipe_gap_size : ℤ) :
    FlappyBirdLogic :=
  let w := Q.ofInt screen_size.1
  let h := Q.ofInt screen_size.2
  let gap := Q.ofInt pipe_gap_size
  let gy := drawGapY h gap rng
  { screen_width := w
    screen_height := h
    pipe_gap := gap
    player_x := w / 5
    player_y := h / 2
    player_vel_y := -9
    player_rot := 45
    pipes := [⟨w, gy.1⟩]
    score := 0
    alive := true
    rng := gy.2 }

/-- Modelled from the spec: scroll all pairs left by `PIPE_VEL_X`, despawn
pairs fully off the left edge, and spawn a new pair at the right edge when
every remaining pair has receded past the spawn-interval threshold. -/
def advancePipes (screen_width screen_height pipe_gap : Q) (pipes : List PipePair)
    (rng : ℕ) : List PipePair × ℕ :=
  let moved := pipes.map fun p => { p with x := p.x - PIPE_VEL_X }
  let kept := moved.filter fun p => Q.blt 0 (p.x + PIPE_WIDTH)
  if kept.all fun p => Q.blt p.x (screen_width - PIPE_SPACING) then
    let gy := drawGapY screen_height pipe_gap rng
    (kept ++ [⟨screen_width, gy.1⟩], gy.2)
  else (kept, rng)

/-- Modelled from the spec: a pass event — the pair's horizontal position
crosses the player's fixed horizontal position during this tick (compare
the previous and the post-scroll relative position of the pair's center). -/
def passedPipe (player_x : Q) (p : PipePair) : Bool :=
  let mid := p.x + PIPE_WIDTH / 2
  Q.ble player_x mid && Q.blt (mid - PIPE_VEL_X) player_x

/-- Modelled from the spec: axis-aligned overlap test of the player's
bounding rectangle against the two rectangles of one pipe pair; touching
edges count as collision (closed intervals). -/
def collidesPipe (pipe_gap player_x player_y : Q) (p : PipePair) : Bool :=
  (Q.ble p.x (player_x + PLAYER_WIDTH) && Q.ble player_x (p.x + PIPE_WIDTH)) &&
    (Q.ble player_y (p.gapTop pipe_gap) ||
      Q.ble (p.gapBottom pipe_gap) (player_y + PLAYER_HEIGHT))

/-- Modelled from the spec: full collision check — ground, ceiling, and
every pipe pair whose horizontal span overlaps the player's. -/
def checkCollision (ground pipe_gap player_x player_y : Q)
    (pipes : List PipePair) : Bool :=
  Q.ble ground (player_y + PLAYER_HEIGHT) || Q.ble player_y 0 ||
    pipes.any (collidesPipe pipe_gap player_x player_y)

/-! ## Range sensor (lidar)

Modelled from the spec: a fan of `NUM_RAYS` rays from the player position
(a semicircle facing forward, rational unit directions), each cast against
the nearest pipe pair's two rectangles and the ground, reporting the
minimum nonnegative intersection distance capped at `LIDAR_MAX_DISTANCE`;
a ray that hits nothing reports exactly the maximum range.  Player
rotation is cosmetic and does not affect sensing. -/

/-- Rational unit direction of ray `i`: the tangent-half-angle point
`((1 - t²)/(1 + t²), 2t/(1 + t²))` with `t = (2i - 359)/360`, sweeping a
semicircle facing the scroll direction. -/
def rayDir (i : ℕ) : Q × Q :=
  let t : Q := Q.ofInt (2 * (i : ℤ) - 359) / Q.ofInt 360
  let t2 := t * t
  let d := (1 : Q) + t2
  ((1 - t2) / d, (2 * t) / d)

/-- Parameter interval (clamped to `[0, cap]` for a degenerate axis) in
which a 1-d ray `p + s·d` stays inside `[lo, hi]`; `none` if never. -/
def slabInterval (p d lo hi cap : Q) : Option (Q × Q) :=
  if d.num = 0 then
    if lo.ble p && p.ble hi then some (0, cap) else none
  else
    let t1 := (lo - p) / d
    let t2 := (hi - p) / d
    some (t1.min t2, t1.max t2)

/-- Distance from `(px, py)` along direction `(dx, dy)` to the axis-aligned
rectangle `[x0, x1] × [y0, y1]`, clamped to `[0, LIDAR_MAX_DISTANCE]`;
`none` if the ray misses within range. -/
def rayRectDist (px py dx dy x0 x1 y0 y1 : Q) : Option Q :=
  match slabInterval px dx x0 x1 LIDAR_MAX_DISTANCE,
      slabInterval py dy y0 y1 LIDAR_MAX_DISTANCE with
  | some (a1, b1), some (a2, b2) =>
    if ((a1.max a2).max 0).ble ((b1.min b2).min LIDAR_MAX_DISTANCE) then
      some ((a1.max a2).max 0)
    else none
  | _, _ => none

/-- Modelled from the spec: the first pair in horizontal order whose right
edge is still ahead of (or under) the player. -/
def nearestPair (player_x : Q) (pipes : List PipePair) : Option PipePair :=
  pipes.find? fun p => Q.ble player_x (p.x + PIPE_WIDTH)

/-- Distance reported by ray `i`: minimum over the candidate hits
(ground, nearest pair's upper and lower rectangles), capped at
`LIDAR_MAX_DISTANCE`; the cap itself when nothing is hit. -/
def rayDist (player_x player_y pipe_gap ground : Q) (pipes : List PipePair)
    (i : ℕ) : Q :=
  let dir := rayDir i
  let groundCand := rayRectDist player_x player_y dir.1 dir.2
    (player_x - LIDAR_MAX_DISTANCE) (player_x + LIDAR_MAX_DISTANCE)
    ground (ground + 100)
  let cands := match nearestPair player_x pipes with
    | none => [groundCand]
    | some p =>
      [rayRectDist player_x player_y dir.1 dir.2 p.x (p.x + PIPE_WIDTH)
          0 (p.gapTop pipe_gap),
        rayRectDist player_x player_y dir.1 dir.2 p.x (p.x + PIPE_WIDTH)
          (p.gapBottom pipe_gap) ground,
        groundCand]
  (cands.filterMap id).foldr Q.min LIDAR_MAX_DISTANCE

/-- Modelled from the spec: `scan(player_x, player_y, player_rot,
upper_pipes, lower_pipes, ground)` (called by the wrapper at
`src/flappy_bird_gymnasium/envs/flappy_bird_env.py:163-170`), returning the
ordered sequence of `NUM_RAYS` per-ray distances; the rotation argument is
cosmetic and unused by sensing. -/
def lidarScan (player_x player_y _player_rot pipe_gap ground : Q)
    (pipes : List PipePair) : List Q :=
  (List.range NUM_RAYS).map (rayDist player_x player_y pipe_gap ground pipes)

/-- The sensor reading of the current game state. -/
def FlappyBirdLogic.scan (g : FlappyBirdLogic) : List Q :=
  lidarScan g.player_x g.player_y g.player_rot g.pipe_gap g.ground g.pipes

/-- Error message raised on a tick after the terminal state. -/
def terminalMsg : String := "update_state called after terminal state"

/-- Modelled from the spec: the player's vertical velocity after applying
the action — a flap sets the fixed upward impulse, otherwise gravity
accumulates, capped at the terminal velocity. -/
def FlappyBirdLogic.tickVel (g : FlappyBirdLogic) (action : Actions) : Q :=
  match action with
  | .flap => PLAYER_FLAP_ACC
  | .idle => (g.player_vel_y + PLAYER_ACC_Y).min PLAYER_MAX_VEL_Y

/-- The obstacle field after this tick's advance, with the PRNG state. -/
def FlappyBirdLogic.tickPipes (g : FlappyBirdLogic) : List PipePair × ℕ :=
  advancePipes g.screen_width g.screen_height g.pipe_gap g.pipes g.rng

/-- Whether a pass event happens this tick. -/
def FlappyBirdLogic.tickScored (g : FlappyBirdLogic) : Bool :=
  g.pipes.any (passedPipe g.player_x)

/-- Whether the post-tick configuration is a collision. -/
def FlappyBirdLogic.tickCollided (g : FlappyBirdLogic) (action : Actions) : Bool :=
  checkCollision g.ground g.pipe_gap g.player_x (g.player_y + g.tickVel action)
    g.tickPipes.1

/-- The successor simulation state of one tick. -/
def FlappyBirdLogic.nextState (g : FlappyBirdLogic) (action : Actions) :
    FlappyBirdLogic :=
  { g with
    player_y := g.player_y + g.tickVel action
    player_vel_y := g.tickVel action
    player_rot := if (g.tickVel action).blt 0 then 45 else -45
    pipes := g.tickPipes.1
    rng := g.tickPipes.2
    score := g.score + (if g.tickScored then 1 else 0)
    alive := !(g.tickCollided action) }

/-- Modelled from the spec: the tick's reward, checked in priority order —
`-1` on the transition to dead, else `+1` on a pass, else `+1/10`. -/
def FlappyBirdLogic.tickReward (g : FlappyBirdLogic) (action : Actions) : Q :=
  if g.tickCollided action then -1
  else if g.tickScored then 1 else 1 / 10

/-- Modelled from the spec: one tick of the simulation clock.  Refuses the
call in the terminal state; otherwise applies the action to the player,
advances the obstacle field, updates the score on a pass event, checks
collision, computes the tick's reward with priority death, pass, alive,
and returns the post-tick sensor reading, the reward, the alive flag and
the successor state. -/
def FlappyBirdLogic.update_state (g : FlappyBirdLogic) (action : Actions) :
    Except String (List Q × Q × Bool × FlappyBirdLogic) :=
  if g.alive = false then .error terminalMsg
  else .ok ((g.nextState action).scan, g.tickReward action,
    !(g.tickCollided action), g.nextState action)

/-! ## Environment wrapper

Translated from `src/flappy_bird_gymnasium/envs/flappy_bird_env.py`
(`FlappyBirdEnv`).  The constructor arguments (lines 70-80), the declared
observation-space shape `(360,)` (lines 82-84), `_normalize_state`
(lines 109-111), `step` (lines 113-146), `reset` (lines 148-177),
`set_color` (lines 179-181) and `render` (lines 183-196). -/

/-- Constructor arguments of `FlappyBirdEnv.__init__`
(`src/flappy_bird_gymnasium/envs/flappy_bird_env.py:70-79`). -/
structure EnvParams where
  screen_size : ℤ × ℤ
  audio_on : Bool
  normalize_obs : Bool
  pipe_gap : ℤ
  bird_color : String
  pipe_color : String
  render_mode : Option String
  background : Option String

/-- The default constructor arguments of the Python signature. -/
def defaultParams : EnvParams :=
  { screen_size := (288, 512)
    audio_on := false
    normalize_obs := true
    pipe_gap := 100
    bird_color := "yellow"
    pipe_color := "green"
    render_mode := none
    background := some "day" }

/-- Modelled from the spec: the state owned by the excluded rendering
collaborator (`FlappyBirdRenderer`, module missing from the excerpt).  It
reads the simulation's accessors to draw a frame and owns only
display-side data. -/
structure FlappyBirdRenderer where
  screen_size : ℤ × ℤ
  audio_on : Bool
  bird_color : String
  pipe_color : String
  background : Option String
  frames_drawn : ℕ
  display_made : Bool
  last_drawn_score : Option ℕ

/-- Modelled from the spec: renderer construction
(`src/flappy_bird_gymnasium/envs/flappy_bird_env.py:101-107`). -/
def FlappyBirdRenderer.mk0 (p : EnvParams) : FlappyBirdRenderer :=
  { screen_size := p.screen_size
    audio_on := p.audio_on
    bird_color := p.bird_color
    pipe_color := p.pipe_color
    background := p.background
    frames_drawn := 0
    display_made := false
    last_drawn_score := none }

/-- Modelled from the spec: `draw_surface` reads the simulation state and
updates only renderer-owned fields. -/
def FlappyBirdRenderer.draw_surface (game : Option FlappyBirdLogic)
    (r : FlappyBirdRenderer) : FlappyBirdRenderer :=
  { r with
    frames_drawn := r.frames_drawn + 1
    last_drawn_score := game.map FlappyBirdLogic.score }

/-- Modelled from the spec: `make_display` opens the display window. -/
def FlappyBirdRenderer.make_display (r : FlappyBirdRenderer) :
    FlappyBirdRenderer :=
  { r with display_made := true }

/-- The state of a `FlappyBirdEnv` instance: the stored constructor
configuration, the declared observation-space shape, and the two owned
sub-objects (`_game`, `_renderer`), both `None` until used. -/
structure FlappyBirdEnv where
  observation_space_shape : ℕ
  screen_size : ℤ × ℤ
  normalize_obs : Bool
  pipe_gap : ℤ
  audio_on : Bool
  game : Option FlappyBirdLogic
  renderer : Option FlappyBirdRenderer
  bird_color : String
  pipe_color : String
  bg_type : Option String
  render_mode : Option String

/-- The `assert` of `__init__`
(`src/flappy_bird_gymnasium/envs/flappy_bird_env.py:97`):
`render_mode is None or render_mode in self.metadata["render_modes"]`. -/
def validRenderMode (m : Option String) : Bool :=
  m == none || m == some "human" || m == some "rgb_array"

/-- The environment state produced by a successful `__init__`. -/
def FlappyBirdEnv.mkRaw (p : EnvParams) : FlappyBirdEnv :=
  { observation_space_shape := 360
    screen_size := p.screen_size
    normalize_obs := p.normalize_obs
    pipe_gap := p.pipe_gap
    audio_on := p.audio_on
    game := none
    renderer := if p.render_mode = none then none else some (FlappyBirdRenderer.mk0 p)
    bird_color := p.bird_color
    pipe_color := p.pipe_color
    bg_type := p.background
    render_mode := p.render_mode }

/-- `FlappyBirdEnv.__init__`
(`src/flappy_bird_gymnasium/envs/flappy_bird_env.py:70-107`): stores the
configuration, declares `observation_space` with shape `(360,)`, leaves
`_game` as `None`, constructs the renderer exactly when a render mode is
given, and asserts that the render mode is valid. -/
def FlappyBirdEnv.init (p : EnvParams) : Except String FlappyBirdEnv :=
  if validRenderMode p.render_mode then .ok (FlappyBirdEnv.mkRaw p)
  else .error "AssertionError"

/-- `FlappyBirdEnv._normalize_state`
(`src/flappy_bird_gymnasium/envs/flappy_bird_env.py:109-111`):
`state = ((state * 2) / LIDAR_MAX_DISTANCE) - 1`, elementwise. -/
def FlappyBirdEnv._normalize_state (state : List Q) : List Q :=
  state.map fun x => x * 2 / LIDAR_MAX_DISTANCE - 1

/-- `FlappyBirdEnv.render`
(`src/flappy_bird_gymnasium/envs/flappy_bird_env.py:183-196`): draws the
next frame from the current simulation state; in `"rgb_array"` mode it
returns the pixel array, otherwise it opens the display if needed and
shows the frame.  Fails (like the Python `AttributeError`) when no
renderer exists. -/
def FlappyBirdEnv.render (env : FlappyBirdEnv) : Except String FlappyBirdEnv :=
  match env.renderer with
  | none => .error "AttributeError"
  | some r =>
    if env.render_mode = some "rgb_array" then
      .ok { env with renderer := some (r.draw_surface env.game) }
    else
      .ok { env with
        renderer := some (
          if (r.draw_surface env.game).display_made then r.draw_surface env.game
          else (r.draw_surface env.game).make_display) }

/-- `FlappyBirdEnv.set_color`
(`src/flappy_bird_gymnasium/envs/flappy_bird_env.py:179-181`): forwards
the color to the renderer when one exists. -/
def FlappyBirdEnv.set_color (env : FlappyBirdEnv) (color : String) :
    FlappyBirdEnv :=
  match env.renderer with
  | none => env
  | some r => { env with renderer := some { r with bird_color := color } }

/-- The `if self.render_mode == "human": self.render()` fragment shared by
`step` and `reset`
(`src/flappy_bird_gymnasium/envs/flappy_bird_env.py:143-144,160-161`). -/
def FlappyBirdEnv.renderIfHuman (env : FlappyBirdEnv) : Except String FlappyBirdEnv :=
  if env.render_mode = some "human" then env.render else .ok env

/-- `FlappyBirdEnv.reset`
(`src/flappy_bird_gymnasium/envs/flappy_bird_env.py:148-177`): seeds the
PRNG, constructs a fresh `FlappyBirdLogic`, renders if in `"human"` mode,
scans the lidar, normalizes the observation if configured, and returns
`(obs, info)` with `info = {"score": score}`. -/
def FlappyBirdEnv.reset (env : FlappyBirdEnv) (seed : ℕ) :
    Except String (List Q × List (String × ℤ) × FlappyBirdEnv) :=
  match FlappyBirdEnv.renderIfHuman
      { env with
        game := some (FlappyBirdLogic.init (mkRng seed) env.screen_size env.pipe_gap) } with
  | .error e => .error e
  | .ok env2 =>
    .ok
      (if env2.normalize_obs then
        FlappyBirdEnv._normalize_state
          (FlappyBirdLogic.init (mkRng seed) env.screen_size env.pipe_gap).scan
      else (FlappyBirdLogic.init (mkRng seed) env.screen_size env.pipe_gap).scan,
      [("score",
        ((FlappyBirdLogic.init (mkRng seed) env.screen_size env.pipe_gap).score : ℤ))],
      env2)

/-- `FlappyBirdEnv.step`
(`src/flappy_bird_gymnasium/envs/flappy_bird_env.py:113-146`): forwards
the action to `update_state`, normalizes the observation if configured,
sets `done = not alive` and `info = {"score": score}`, renders if in
`"human"` mode, and returns `(obs, reward, done, False, info)`. -/
def FlappyBirdEnv.step (env : FlappyBirdEnv) (action : Actions) :
    Except String (List Q × Q × Bool × Bool × List (String × ℤ) × FlappyBirdEnv) :=
  match env.game with
  | none => .error "AttributeError"
  | some g =>
    match g.update_state action with
    | .error e => .error e
    | .ok (obs, reward, alive, g') =>
      match FlappyBirdEnv.renderIfHuman { env with game := some g' } with
      | .error e => .error e
      | .ok env2 =>
        .ok (if env.normalize_obs then FlappyBirdEnv._normalize_state obs else obs,
          reward, !alive, false, [("score", (g'.score : ℤ))], env2)

/-! ## Episode traces, for the determinism property -/

/-- The per-tick outputs `(observation, reward, done)` of running a fixed
action sequence from the current state. -/
def FlappyBirdEnv.traceAux (env : FlappyBirdEnv) :
    List Actions → Except String (List (List Q × Q × Bool))
  | [] => .ok []
  | a :: rest =>
    match env.step a with
    | .error e => .error e
    | .ok (obs, r, done, _, _, env') =>
      match env'.traceAux rest with
      | .error e => .error e
      | .ok tl => .ok ((obs, r, done) :: tl)

/-- Reset with a seed, then run a fixed action sequence, collecting the
per-tick `(observation, reward, done)` outputs. -/
def FlappyBirdEnv.trace (env : FlappyBirdEnv) (seed : ℕ)
    (actions : List Actions) : Except String (List (List Q × Q × Bool)) :=
  match env.reset seed with
  | .error e => .error e
  | .ok (_, _, env1) => env1.traceAux actions

/-! ## Helper predicates for stating results about `Except` outcomes -/

/-- `p` holds of the payload whenever the computation succeeded. -/
def okHolds (p : α → Bool) : Except String α → Bool
  | .ok a => p a
  | .error _ => true

/-- Every element of the list lies in `[lo, hi]`. -/
def boundedList (lo hi : Q) (xs : List Q) : Bool :=
  xs.all fun x => lo.ble x && x.ble hi

/-! ## Auxiliary facts about values of the constants -/

theorem Q.val_zero : (0 : Q).val = 0 := by
  rw [Q.val_ofNat]; norm_num

theorem Q.val_one : (1 : Q).val = 1 := by
  rw [Q.val_ofNat]; norm_num

theorem Q.val_neg_one : (-1 : Q).val = -1 := by
  rw [Q.val_neg, Q.val_one]

theorem lidar_max_val : LIDAR_MAX_DISTANCE.val = 346 := by
  rw [LIDAR_MAX_DISTANCE, Q.val_ofNat]; norm_num

/-! ## Bounds of the range sensor -/

theorem rayRectDist_bound (px py dx dy x0 x1 y0 y1 t : Q)
    (h : rayRectDist px py dx dy x0 x1 y0 y1 = some t) :
    0 ≤ t.val ∧ t.val ≤ LIDAR_MAX_DISTANCE.val := by
  unfold rayRectDist at h
  split at h
  · next a1 b1 a2 b2 _ _ =>
    split at h
    · next hle =>
      injection h with h
      subst h
      constructor
      · rw [Q.val_max]
        exact le_max_of_le_right (le_of_eq Q.val_zero.symm)
      · have hmax := (Q.ble_iff _ _).mp hle
        have hmin : ((b1.min b2).min LIDAR_MAX_DISTANCE).val ≤ LIDAR_MAX_DISTANCE.val := by
          rw [Q.val_min]
          exact min_le_right _ _
        exact le_trans hmax hmin
    · exact absurd h (by simp)
  · exact absurd h (by simp)

theorem foldr_min_bound (l : List Q) (hl : ∀ x ∈ l, 0 ≤ x.val) :
    0 ≤ (l.foldr Q.min LIDAR_MAX_DISTANCE).val ∧
      (l.foldr Q.min LIDAR_MAX_DISTANCE).val ≤ LIDAR_MAX_DISTANCE.val := by
  induction l with
  | nil =>
    rw [List.foldr_nil, lidar_max_val]
    norm_num
  | cons x xs ih =>
    have ihx := ih (fun y hy => hl y (List.mem_cons_of_mem x hy))
    rw [List.foldr_cons, Q.val_min]
    constructor
    · exact le_min (hl x (List.mem_cons_self x xs)) ihx.1
    · exact le_trans (min_le_right _ _) ihx.2

theorem rayDist_bound (player_x player_y pipe_gap ground : Q)
    (pipes : List PipePair) (i : ℕ) :
    0 ≤ (rayDist player_x player_y pipe_gap ground pipes i).val ∧
      (rayDist player_x player_y pipe_gap ground pipes i).val ≤
        LIDAR_MAX_DISTANCE.val := by
  unfold rayDist
  apply foldr_min_bound
  intro x hx
  rw [List.mem_filterMap] at hx
  obtain ⟨c, hc, hceq⟩ := hx
  rcases hnp : nearestPair player_x pipes with _ | p <;> rw [hnp] at hc <;>
    simp only [List.mem_cons, List.mem_singleton, List.not_mem_nil, or_false] at hc
  · subst hc
    exact (rayRectDist_bound _ _ _ _ _ _ _ _ _ hceq).1
  · rcases hc with hc | hc | hc <;> subst hc <;>
      exact (rayRectDist_bound _ _ _ _ _ _ _ _ _ hceq).1

theorem boundedList_iff (lo hi : Q) (xs : List Q) :
    boundedList lo hi xs = true ↔
      ∀ x ∈ xs, lo.val ≤ x.val ∧ x.val ≤ hi.val := by
  unfold boundedList
  rw [List.all_eq_true]
  constructor
  · intro h x hx
    have hb := h x hx
    rw [Bool.and_eq_true, Q.ble_iff, Q.ble_iff] at hb
    exact hb
  · intro h x hx
    rw [Bool.and_eq_true, Q.ble_iff, Q.ble_iff]
    exact h x hx

theorem scan_bounded (g : FlappyBirdLogic) :
    boundedList 0 LIDAR_MAX_DISTANCE g.scan = true := by
  rw [boundedList_iff]
  intro x hx
  unfold FlappyBirdLogic.scan lidarScan at hx
  rw [List.mem_map] at hx
  obtain ⟨i, _, rfl⟩ := hx
  have h := rayDist_bound g.player_x g.player_y g.pipe_gap g.ground g.pipes i
  exact ⟨Q.val_zero ▸ h.1, h.2⟩

theorem normalize_val (x : Q) :
    (x * 2 / LIDAR_MAX_DISTANCE - 1).val = x.val * 2 / 346 - 1 := by
  rw [Q.val_sub, Q.val_div, Q.val_mul, Q.val_one, lidar_max_val, Q.val_ofNat]
  norm_num

theorem normalize_bounded (xs : List Q)
    (hx : boundedList 0 LIDAR_MAX_DISTANCE xs = true) :
    boundedList (-1) 1 (FlappyBirdEnv._normalize_state xs) = true := by
  rw [boundedList_iff] at hx ⊢
  intro y hy
  unfold FlappyBirdEnv._normalize_state at hy
  rw [List.mem_map] at hy
  obtain ⟨x, hxm, rfl⟩ := hy
  obtain ⟨h0, h1⟩ := hx x hxm
  rw [Q.val_zero] at h0
  rw [lidar_max_val] at h1
  rw [normalize_val, Q.val_neg_one, Q.val_one]
  constructor
  · have : (0 : ℚ) ≤ x.val * 2 / 346 := by positivity
    linarith
  · have : x.val * 2 / 346 ≤ 2 := by
      rw [div_le_iff (by norm_num : (0:ℚ) < 346)]
      linarith
    linarith

/-! ## Structural facts about one tick and about the rendering fragment -/

theorem update_state_error (g : FlappyBirdLogic) (a : Actions)
    (h : g.alive = false) : g.update_state a = .error terminalMsg := by
  unfold FlappyBirdLogic.update_state
  rw [if_pos h]

theorem update_state_ok (g : FlappyBirdLogic) (a : Actions) (h : g.alive = true) :
    g.update_state a = .ok ((g.nextState a).scan, g.tickReward a,
      !(g.tickCollided a), g.nextState a) := by
  unfold FlappyBirdLogic.update_state
  rw [if_neg (by simp [h])]

theorem renderIfHuman_ok (env : FlappyBirdEnv)
    (hr : env.render_mode = some "human" → env.renderer.isSome = true) :
    ∃ env2 : FlappyBirdEnv, env.renderIfHuman = .ok env2
      ∧ env2.game = env.game ∧ env2.normalize_obs = env.normalize_obs := by
  unfold FlappyBirdEnv.renderIfHuman
  by_cases hm : env.render_mode = some "human"
  · rw [if_pos hm]
    have hs := hr hm
    unfold FlappyBirdEnv.render
    split
    · next he =>
      rw [he] at hs
      exact absurd hs (by simp)
    · next r he =>
      split
      · exact ⟨_, rfl, rfl, rfl⟩
      · exact ⟨_, rfl, rfl, rfl⟩
  · rw [if_neg hm]
    exact ⟨env, rfl, rfl, rfl⟩

/-! ## Concrete instances used by witnesses -/

def env0 : FlappyBirdEnv := FlappyBirdEnv.mkRaw defaultParams

def g1 : FlappyBirdLogic := FlappyBirdLogic.init (mkRng 0) (288, 512) 100

def env1 : FlappyBirdEnv :=
  match env0.reset 0 with
  | .ok out => out.2.2
  | .error _ => env0

def gDead : FlappyBirdLogic := { g1 with alive := false }

def envDead : FlappyBirdEnv := { env1 with game := some gDead }

def envR : FlappyBirdEnv :=
  FlappyBirdEnv.mkRaw { defaultParams with render_mode := some "rgb_array" }

def badParams : EnvParams :=
  { defaultParams with
    screen_size := (0, 0)
    pipe_gap := -5 }

/-! ## The claims -/

/-- **C1.** For every tick of the simulation, the reward returned by
`step`'s underlying tick is exactly one of `-1`, `+1`, `+1/10`, chosen by
priority order death > pass > alive: `-1` if the player just transitioned
to dead this tick, else `+1` if the score was incremented this tick, else
`+1/10`. -/
theorem update_state_reward_priority (g : FlappyBirdLogic) (a : Actions)
    (h : g.alive = true) :
    Except.map (fun o => (o.2.1, o.2.2.1, o.2.2.2.score)) (g.update_state a)
      = Except.map (fun o =>
          ((if o.2.2.1 = false then (-1 : Q)
            else if o.2.2.2.score = g.score + 1 then 1 else 1 / 10),
            o.2.2.1, o.2.2.2.score)) (g.update_state a) := by
  rw [update_state_ok g a h]
  simp only [Except.map]
  by_cases hc : g.tickCollided a = true
  · simp [FlappyBirdLogic.tickReward, hc]
  · by_cases hs : g.tickScored = true
    · simp [FlappyBirdLogic.tickReward, FlappyBirdLogic.nextState, hc, hs]
    · simp [FlappyBirdLogic.tickReward, FlappyBirdLogic.nextState, hc, hs]

theorem update_state_reward_priority_witness :
    g1.alive = true ∧
      Except.map (fun o => (o.2.1, o.2.2.1, o.2.2.2.score)) (g1.update_state .idle)
        = Except.map (fun o =>
            ((if o.2.2.1 = false then (-1 : Q)
              else if o.2.2.2.score = g1.score + 1 then 1 else 1 / 10),
              o.2.2.1, o.2.2.2.score)) (g1.update_state .idle) :=
  ⟨rfl, update_state_reward_priority g1 .idle rfl⟩

/-- **C2.** For every fixed seed and every fixed finite action sequence,
two independently constructed environment instances that are each reset
with that seed and stepped with that action sequence produce identical
sequences of (observation, reward, done) at every tick. -/
theorem trace_deterministic (p : EnvParams) (e1 e2 : FlappyBirdEnv)
    (seed : ℕ) (as : List Actions)
    (h1 : FlappyBirdEnv.init p = .ok e1) (h2 : FlappyBirdEnv.init p = .ok e2) :
    e1.trace seed as = e2.trace seed as := by
  have h := h1.symm.trans h2
  have he : e1 = e2 := by injection h
  rw [he]

theorem trace_deterministic_witness :
    FlappyBirdEnv.init defaultParams = .ok env0 ∧
      env0.trace 0 [.idle, .flap, .idle] = env0.trace 0 [.idle, .flap, .idle] :=
  ⟨rfl, trace_deterministic defaultParams env0 env0 0 [.idle, .flap, .idle] rfl rfl⟩

/-- **C5.** Calling `step` after the episode has reached the terminal
state fails loudly as a contract violation: the engine refuses the call
(an error, never a silent resumption of alive-state rewards), and the
wrapper propagates the refusal. -/
theorem step_after_terminal_errors (env : FlappyBirdEnv) (g : FlappyBirdLogic)
    (a : Actions) (hg : env.game = some g) (h : g.alive = false) :
    g.update_state a = .error terminalMsg ∧ env.step a = .error terminalMsg := by
  refine ⟨update_state_error g a h, ?_⟩
  simp only [FlappyBirdEnv.step, hg, update_state_error g a h]

theorem step_after_terminal_errors_witness :
    envDead.game = some gDead ∧ gDead.alive = false ∧
      (gDead.update_state .flap = .error terminalMsg ∧
        envDead.step .flap = .error terminalMsg) :=
  ⟨rfl, rfl, step_after_terminal_errors envDead gDead .flap rfl rfl⟩

/-- **C6 (counterexample).** Construction does not detect invalid
configurations: an environment with non-positive screen dimensions and a
negative pipe gap is constructed without any error. -/
theorem init_accepts_invalid_config :
    FlappyBirdEnv.init badParams = .ok (FlappyBirdEnv.mkRaw badParams) := rfl

/-- **C6 (amended).** Construction checks only the render mode: the
constructor fails fast exactly when `render_mode` is invalid (not `None`,
`"human"` or `"rgb_array"`); gap size and screen dimensions are stored
unvalidated, and the sensor ray count is a fixed constant, not a
constructor input. -/
theorem init_checks_only_render_mode (p : EnvParams) :
    (FlappyBirdEnv.init p).isOk = validRenderMode p.render_mode := by
  unfold FlappyBirdEnv.init
  by_cases h : validRenderMode p.render_mode = true
  · rw [if_pos h, h]
    rfl
  · rw [if_neg h]
    rw [Bool.not_eq_true] at h
    rw [h]
    rfl

/-- **C7.** For every call to `step`, the terminal flag returned (third
element of the result tuple) is true exactly when the engine reports the
player as not alive for that tick: the returned done flag equals the
negation of the alive flag produced by the tick. -/
theorem step_done_eq_not_alive (env : FlappyBirdEnv) (g : FlappyBirdLogic)
    (a : Actions) (hg : env.game = some g)
    (hr : env.render_mode = some "human" → env.renderer.isSome = true) :
    Except.map (fun res => res.2.2.1) (env.step a)
      = Except.map (fun out => !out.2.2.1) (g.update_state a) := by
  obtain ⟨os, ss, no, pg, ao, gm, rd, bc, pc, bg, rm⟩ := env
  dsimp only at hg hr
  subst hg
  cases hu : g.update_state a with
  | error e => simp [FlappyBirdEnv.step, hu, Except.map]
  | ok out =>
    obtain ⟨obs, reward, alive, g'⟩ := out
    obtain ⟨env2, hre, -, -⟩ :=
      renderIfHuman_ok (FlappyBirdEnv.mk os ss no pg ao (some g') rd bc pc bg rm) hr
    simp [FlappyBirdEnv.step, hu, hre, Except.map]

theorem step_done_eq_not_alive_witness :
    env1.game = some g1 ∧
      Except.map (fun res => res.2.2.1) (env1.step .idle)
        = Except.map (fun out => !out.2.2.1) (g1.update_state .idle) :=
  ⟨rfl, step_done_eq_not_alive env1 g1 .idle rfl (fun h => Option.noConfusion h)⟩

/-- **C9.** Rendering never mutates simulation state: for every
environment state, a successful `render`, and `set_color`, leave the
attached game (and with it score, player position/velocity/rotation,
obstacle list and alive flag) unchanged; only renderer-owned state is
touched. -/
theorem render_preserves_simulation_state (env : FlappyBirdEnv) (c : String)
    (h : env.render.isOk = true) :
    Except.map FlappyBirdEnv.game env.render = .ok env.game
    ∧ (env.set_color c).game = env.game := by
  obtain ⟨os, ss, no, pg, ao, gm, rd, bc, pc, bg, rm⟩ := env
  cases rd with
  | none => simp [FlappyBirdEnv.render, Except.isOk, Except.toBool] at h
  | some r =>
    constructor
    · simp only [FlappyBirdEnv.render]
      split <;> simp [Except.map]
    · simp [FlappyBirdEnv.set_color]

theorem render_preserves_simulation_state_witness :
    envR.render.isOk = true ∧
      (Except.map FlappyBirdEnv.game envR.render = .ok envR.game
        ∧ (envR.set_color "red").game = envR.game) :=
  ⟨rfl, render_preserves_simulation_state envR "red" rfl⟩

/-! ## More structural helpers -/

theorem okHolds_of (p : α → Bool) (x : Except String α)
    (h : ∀ a, x = .ok a → p a = true) : okHolds p x = true := by
  cases x with
  | error e => rfl
  | ok a => exact h a rfl

theorem scan_length (g : FlappyBirdLogic) : g.scan.length = 360 := by
  unfold FlappyBirdLogic.scan lidarScan
  rw [List.length_map, List.length_range]
  rfl

theorem normalize_get (xs : List Q) (i : ℕ) :
    ((FlappyBirdEnv._normalize_state xs).get? i).map Q.val
      = (xs.get? i).map (fun d => 2 * d.val / LIDAR_MAX_DISTANCE.val - 1) := by
  unfold FlappyBirdEnv._normalize_state
  rw [List.get?_map]
  cases h : xs.get? i with
  | none => rfl
  | some d =>
    show some (d * 2 / LIDAR_MAX_DISTANCE - 1).val
      = some (2 * d.val / LIDAR_MAX_DISTANCE.val - 1)
    congr 1
    rw [normalize_val, lidar_max_val]
    ring

theorem mkRaw_hr (p : EnvParams) :
    (FlappyBirdEnv.mkRaw p).render_mode = some "human" →
      (FlappyBirdEnv.mkRaw p).renderer.isSome = true := by
  intro h
  unfold FlappyBirdEnv.mkRaw at h ⊢
  dsimp only at h ⊢
  rw [if_neg (by rw [h]; simp)]
  rfl

theorem reset_ok (env : FlappyBirdEnv) (seed : ℕ)
    (hr : env.render_mode = some "human" → env.renderer.isSome = true) :
    ∃ env2, env.reset seed = .ok
      (if env.normalize_obs then
        FlappyBirdEnv._normalize_state
          (FlappyBirdLogic.init (mkRng seed) env.screen_size env.pipe_gap).scan
      else (FlappyBirdLogic.init (mkRng seed) env.screen_size env.pipe_gap).scan,
      [("score",
        ((FlappyBirdLogic.init (mkRng seed) env.screen_size env.pipe_gap).score : ℤ))],
      env2) := by
  obtain ⟨os, ss, no, pg, ao, gm, rd, bc, pc, bg, rm⟩ := env
  dsimp only at hr ⊢
  obtain ⟨env2, hre, -, hno⟩ :=
    renderIfHuman_ok
      (FlappyBirdEnv.mk os ss no pg ao
        (some (FlappyBirdLogic.init (mkRng seed) ss pg)) rd bc pc bg rm) hr
  refine ⟨env2, ?_⟩
  simp [FlappyBirdEnv.reset, hre, hno]

/-- **C8.** The observation vector returned by `step` and by `reset`
always has exactly 360 entries, fixed as a configuration constant of the
environment (the declared observation-space shape `(360,)`), for every
reachable state. -/
theorem obs_length_360 (p : EnvParams) (e : FlappyBirdEnv)
    (h : FlappyBirdEnv.init p = .ok e) (seed : ℕ)
    (env : FlappyBirdEnv) (a : Actions) :
    e.observation_space_shape = 360
    ∧ okHolds (fun out => out.1.length == 360) (e.reset seed) = true
    ∧ okHolds (fun res => res.1.length == 360) (env.step a) = true := by
  have he : e = FlappyBirdEnv.mkRaw p := by
    unfold FlappyBirdEnv.init at h
    split at h
    · injection h with h
      exact h.symm
    · exact absurd h (by simp)
  subst he
  refine ⟨rfl, ?_, ?_⟩
  · apply okHolds_of
    intro out hout
    obtain ⟨env2, hrok⟩ := reset_ok (FlappyBirdEnv.mkRaw p) seed (mkRaw_hr p)
    rw [hrok] at hout
    injection hout with hout
    rw [← hout]
    split <;> simp [FlappyBirdEnv._normalize_state, scan_length]
  · apply okHolds_of
    intro res hres
    obtain ⟨os, ss, no, pg, ao, gm, rd, bc, pc, bg, rm⟩ := env
    cases gm with
    | none => simp [FlappyBirdEnv.step] at hres
    | some g =>
      cases halive : g.alive with
      | false => simp [FlappyBirdEnv.step, update_state_error g a halive] at hres
      | true =>
        have hu := update_state_ok g a halive
        cases hrih : FlappyBirdEnv.renderIfHuman
            (FlappyBirdEnv.mk os ss no pg ao (some (g.nextState a)) rd bc pc bg rm) with
        | error e2 => simp [FlappyBirdEnv.step, hu, hrih] at hres
        | ok env2 =>
          simp [FlappyBirdEnv.step, hu, hrih] at hres
          subst hres
          split <;> simp [FlappyBirdEnv._normalize_state, scan_length]

theorem obs_length_360_witness :
    FlappyBirdEnv.init defaultParams = .ok env0 ∧
      (env0.observation_space_shape = 360
        ∧ okHolds (fun out => out.1.length == 360) (env0.reset 0) = true
        ∧ okHolds (fun res => res.1.length == 360) (env1.step .flap) = true) :=
  ⟨rfl, obs_length_360 defaultParams env0 rfl 0 env1 .flap⟩

/-- **C10.** For every call to `step`, the fourth element of the returned
tuple (the truncation flag) is the constant `false`, and the info
dictionary returned by both `step` and `reset` contains exactly the key
`"score"` mapping to the game's current score: episodes end only by
in-game death, never by truncation. -/
theorem step_trunc_false_info_score (env : FlappyBirdEnv) (g : FlappyBirdLogic)
    (a : Actions) (seed : ℕ) (hg : env.game = some g)
    (hr : env.render_mode = some "human" → env.renderer.isSome = true) :
    Except.map (fun res => (res.2.2.2.1, res.2.2.2.2.1)) (env.step a)
      = Except.map (fun out => (false, [("score", (out.2.2.2.score : ℤ))]))
          (g.update_state a)
    ∧ Except.map (fun out => out.2.1) (env.reset seed)
      = .ok [("score",
          ((FlappyBirdLogic.init (mkRng seed) env.screen_size env.pipe_gap).score : ℤ))] := by
  constructor
  · obtain ⟨os, ss, no, pg, ao, gm, rd, bc, pc, bg, rm⟩ := env
    dsimp only at hg hr
    subst hg
    cases hu : g.update_state a with
    | error e => simp [FlappyBirdEnv.step, hu, Except.map]
    | ok out =>
      obtain ⟨obs, reward, alive, g'⟩ := out
      obtain ⟨env2, hre, -, -⟩ :=
        renderIfHuman_ok (FlappyBirdEnv.mk os ss no pg ao (some g') rd bc pc bg rm) hr
      simp [FlappyBirdEnv.step, hu, hre, Except.map]
  · obtain ⟨env2, hrok⟩ := reset_ok env seed hr
    rw [hrok]
    rfl

theorem step_trunc_false_info_score_witness :
    env1.game = some g1 ∧
      (Except.map (fun res => (res.2.2.2.1, res.2.2.2.2.1)) (env1.step .idle)
        = Except.map (fun out => (false, [("score", (out.2.2.2.score : ℤ))]))
            (g1.update_state .idle)
      ∧ Except.map (fun out => out.2.1) (env1.reset 0)
        = .ok [("score",
            ((FlappyBirdLogic.init (mkRng 0) env1.screen_size env1.pipe_gap).score : ℤ))]) :=
  ⟨rfl, step_trunc_false_info_score env1 g1 .idle 0 rfl (fun h => Option.noConfusion h)⟩

/-- **C3.** When observation normalization is enabled, every component of
the observation returned by `step` and by `reset` equals
`2*d/LIDAR_MAX_DISTANCE - 1`, where `d` is the corresponding raw sensor
distance; the normalization is a pure linear rescale applied in the
wrapper, outside the core engine. -/
theorem obs_normalized_linear_rescale (env : FlappyBirdEnv)
    (g : FlappyBirdLogic) (a : Actions) (seed i : ℕ)
    (hn : env.normalize_obs = true) (hg : env.game = some g)
    (hr : env.render_mode = some "human" → env.renderer.isSome = true) :
    Except.map (fun res => (res.1.get? i).map Q.val) (env.step a)
      = Except.map (fun out => (out.1.get? i).map
          (fun d => 2 * d.val / LIDAR_MAX_DISTANCE.val - 1)) (g.update_state a)
    ∧ Except.map (fun out => (out.1.get? i).map Q.val) (env.reset seed)
      = .ok (((FlappyBirdLogic.init (mkRng seed) env.screen_size
            env.pipe_gap).scan.get? i).map
          (fun d => 2 * d.val / LIDAR_MAX_DISTANCE.val - 1)) := by
  constructor
  · obtain ⟨os, ss, no, pg, ao, gm, rd, bc, pc, bg, rm⟩ := env
    dsimp only at hn hg hr
    subst hg
    subst hn
    cases hu : g.update_state a with
    | error e => simp [FlappyBirdEnv.step, hu, Except.map]
    | ok out =>
      obtain ⟨obs, reward, alive, g'⟩ := out
      obtain ⟨env2, hre, -, -⟩ :=
        renderIfHuman_ok
          (FlappyBirdEnv.mk os ss true pg ao (some g') rd bc pc bg rm) hr
      simp only [FlappyBirdEnv.step, hu, hre, Except.map, if_true]
      rw [normalize_get]
  · obtain ⟨env2, hrok⟩ := reset_ok env seed hr
    rw [hrok]
    simp only [Except.map, hn, if_true]
    rw [normalize_get]

theorem obs_normalized_linear_rescale_witness :
    env1.normalize_obs = true ∧ env1.game = some g1 ∧
      (Except.map (fun res => (res.1.get? 0).map Q.val) (env1.step .idle)
        = Except.map (fun out => (out.1.get? 0).map
            (fun d => 2 * d.val / LIDAR_MAX_DISTANCE.val - 1)) (g1.update_state .idle)
      ∧ Except.map (fun out => (out.1.get? 0).map Q.val) (env1.reset 0)
        = .ok (((FlappyBirdLogic.init (mkRng 0) env1.screen_size
              env1.pipe_gap).scan.get? 0).map
            (fun d => 2 * d.val / LIDAR_MAX_DISTANCE.val - 1))) :=
  ⟨rfl, rfl, obs_normalized_linear_rescale env1 g1 .idle 0 0 rfl rfl
    (fun h => Option.noConfusion h)⟩

/-- **C4.** For every reachable geometry, every raw value returned by the
range sensor lies in `[0, LIDAR_MAX_DISTANCE]` inclusive, and consequently
every component of the normalized observation returned by `step` and
`reset` lies in `[-1, 1]` inclusive. -/
theorem sensor_obs_bounds (env : FlappyBirdEnv) (g : FlappyBirdLogic)
    (a : Actions) (seed : ℕ) (hn : env.normalize_obs = true)
    (hg : env.game = some g)
    (hr : env.render_mode = some "human" → env.renderer.isSome = true) :
    boundedList 0 LIDAR_MAX_DISTANCE g.scan = true
    ∧ okHolds (fun res => boundedList (-1) 1 res.1) (env.step a) = true
    ∧ okHolds (fun out => boundedList (-1) 1 out.1) (env.reset seed) = true := by
  refine ⟨scan_bounded g, ?_, ?_⟩
  · apply okHolds_of
    intro res hres
    obtain ⟨os, ss, no, pg, ao, gm, rd, bc, pc, bg, rm⟩ := env
    dsimp only at hn hg hr
    subst hg
    subst hn
    cases halive : g.alive with
    | false => simp [FlappyBirdEnv.step, update_state_error g a halive] at hres
    | true =>
      have hu := update_state_ok g a halive
      cases hrih : FlappyBirdEnv.renderIfHuman
          (FlappyBirdEnv.mk os ss true pg ao (some (g.nextState a)) rd bc pc bg rm) with
      | error e2 => simp [FlappyBirdEnv.step, hu, hrih] at hres
      | ok env2 =>
        simp [FlappyBirdEnv.step, hu, hrih] at hres
        subst hres
        exact normalize_bounded _ (scan_bounded _)
  · apply okHolds_of
    intro out hout
    obtain ⟨env2, hrok⟩ := reset_ok env seed hr
    rw [hrok] at hout
    injection hout with hout
    rw [← hout]
    simp only [hn, if_true]
    exact normalize_bounded _ (scan_bounded _)

theorem sensor_obs_bounds_witness :
    env1.normalize_obs = true ∧ env1.game = some g1 ∧
      (boundedList 0 LIDAR_MAX_DISTANCE g1.scan = true
      ∧ okHolds (fun res => boundedList (-1) 1 res.1) (env1.step .idle) = true
      ∧ okHolds (fun out => boundedList (-1) 1 out.1) (env1.reset 0) = true) :=
  ⟨rfl, rfl, sensor_obs_bounds env1 g1 .idle 0 rfl rfl
    (fun h => Option.noConfusion h)⟩
